import Mathlib

/-!
Verification of the backend-routing gateway in `ai_server/server.py`.

The Python module is shallowly embedded: every external effect (the
filesystem scan, the subprocess run, the two HTTP services, the managed
ollama service) is passed in as an explicit oracle argument, and the
routing functions additionally return the ordered list of backend
adapters (or HTTP POSTs) that they invoked, so that "only backend X is
contacted" becomes a statement about that trace.
-/

namespace AiServer

/-- Python exception values, tagged by the exception class used in
`server.py` (`ValueError` vs plain `Exception`); `str(e)` is the carried
message. -/
inductive PyErr where
  | valueError (msg : String)
  | exception (msg : String)
deriving Repr, DecidableEq

/-- `str(e)` on an exception: the message it carries. -/
def pyStr : PyErr → String
  | .valueError m => m
  | .exception m => m

/-- The characters stripped by Python's `str.strip()` (ASCII part). -/
def isPyWs (c : Char) : Bool :=
  c = ' ' ∨ c = '\t' ∨ c = '\n' ∨ c = '\r' ∨ c = '\x0b' ∨ c = '\x0c'

/-- Python `s.strip()`: drop leading and trailing whitespace. -/
def pyStrip (s : String) : String :=
  ⟨((s.toList.dropWhile isPyWs).reverse.dropWhile isPyWs).reverse⟩

/-- Join a list of strings with a separator (Python `sep.join(l)`). -/
def joinWith (sep : String) : List String → String
  | [] => ""
  | [x] => x
  | x :: xs => x ++ sep ++ joinWith sep xs

/-- Python `s.endswith(suffix)`. -/
def strEndsWith (s suffix : String) : Bool :=
  suffix.toList.reverse.isPrefixOf s.toList.reverse

/-- Python `s.startswith(pre)`. -/
def strStartsWith (s pre : String) : Bool :=
  pre.toList.isPrefixOf s.toList

/-- Split a character list at every occurrence of `c` (Python
`s.split(c)` for a one-character separator). -/
def splitOnCharAux (c : Char) : List Char → List (List Char)
  | [] => [[]]
  | a :: rest =>
    let r := splitOnCharAux c rest
    if a = c then [] :: r
    else
      match r with
      | [] => [[a]]
      | h :: t => (a :: h) :: t

/-- Python `s.split('\n')`. -/
def splitLines (s : String) : List String :=
  (splitOnCharAux '\n' s.toList).map fun cs => ⟨cs⟩

/-- Python `repr` of a list of strings, as interpolated into f-strings
(each element in single quotes, comma-separated, in brackets). -/
def pyListRepr (l : List String) : String :=
  "[" ++ joinWith ", " (l.map fun s => "\x27" ++ s ++ "\x27") ++ "]"

/-- `os.path.splitext(f)[0]` for a bare filename: cut at the last dot,
provided some character before that dot is not itself a dot (Python does
not treat a leading run of dots as starting an extension). -/
def splitext_stem (f : String) : String :=
  let cs := f.toList
  let dots := (List.range cs.length).filter fun i => cs.getD i ' ' = '.'
  match dots.getLast? with
  | none => f
  | some di => if (cs.take di).any (fun c => c ≠ '.') then ⟨cs.take di⟩ else f

/-- The filesystem as seen through `os.path.exists` + `os.listdir`:
`none` when the directory does not exist (or listing it raises, which the
code treats the same way), otherwise the directory's entries in listing
order. -/
abbrev FS := String → Option (List String)

def DEFAULT_MODEL : String := "deepseek-coder-v2:latest"

def LLAMA_CPP_CLI : String := "/data1/llama.cpp/bin/llama-cli"

def GGUF_DIR : String := "/data1/GGUF"

def LLAMA_CPP_MODEL_DIRS : List String :=
  ["DeepSeek-V2.5-IQ1_M",
   "DeepSeek-V3-0324-UD-IQ2_XXS",
   "DeepSeek-V3-0324-UD-Q2_K_XL"]

def LLAMA_CPP_SKIP_PATTERNS : List String :=
  ["ggml_cuda_init:", "warning:", "build:", "main:", "llama_model_loader:",
   "print_info:", "load:", "load_tensors:", "llama_context:",
   "common_init_from_params:", "system_info:", "sampler", "generate:"]

/-- Boolean infix test on character lists. -/
def infixOfB (pat : List Char) : List Char → Bool
  | [] => pat.isPrefixOf ([] : List Char)
  | l@(_ :: rest) => pat.isPrefixOf l || infixOfB pat rest

/-- Python `pat in line` (substring containment). -/
def containsSub (line pat : String) : Bool :=
  infixOfB pat.toList line.toList

/-- `get_available_llamacpp_models`: every `.gguf` entry of every existing
model directory, reported as `dir/file`. -/
def get_available_llamacpp_models (fs : FS) : List String :=
  LLAMA_CPP_MODEL_DIRS.flatMap fun model_dir =>
    match fs (GGUF_DIR ++ "/" ++ model_dir) with
    | none => []
    | some files =>
      (files.filter (fun f => strEndsWith f ".gguf")).map fun file => model_dir ++ "/" ++ file

/-- Inner loop of `resolve_model_path`: first `.gguf` file of the
directory matched by the identifier under one of the four match rules. -/
def resolve_in_dir (model dir_path model_dir : String) : List String → Option String
  | [] => none
  | file :: rest =>
    if model = model_dir ∨ model = model_dir ++ "/" ++ file ∨ model = file ∨
        model = splitext_stem file then
      some (dir_path ++ "/" ++ file)
    else
      resolve_in_dir model dir_path model_dir rest

/-- Outer loop of `resolve_model_path` over the configured directories. -/
def resolve_go (fs : FS) (model : String) : List String → Option String
  | [] => none
  | model_dir :: rest =>
    let dir_path := GGUF_DIR ++ "/" ++ model_dir
    match fs dir_path with
    | none => resolve_go fs model rest
    | some files =>
      match resolve_in_dir model dir_path model_dir (files.filter fun f => strEndsWith f ".gguf") with
      | some p => some p
      | none => resolve_go fs model rest

/-- `resolve_model_path`: resolve a model identifier to the first matching
`.gguf` artifact path, or `none`. -/
def resolve_model_path (fs : FS) (model : String) : Option String :=
  resolve_go fs model LLAMA_CPP_MODEL_DIRS

/-- `is_llamacpp_available`. -/
def is_llamacpp_available (fs : FS) (model : String) : Bool :=
  (resolve_model_path fs model).isSome

/-- One element of a chat `messages` array. -/
structure Message where
  role : String
  content : String
deriving Repr, DecidableEq

/-- Outcome of the one `subprocess.run` call in `chat_with_llamacpp`:
success with the permissively decoded standard output, or one of the
three exception classes the adapter catches.  `calledProcessError`
carries the decoded `e.stderr` (`none` when the captured bytes are
falsy). -/
inductive ProcOutcome where
  | ok (stdout_text : String)
  | timeoutExpired
  | calledProcessError (stderr : Option String)
  | fileNotFound
deriving Repr, DecidableEq

/-- The argument list built by `chat_with_llamacpp`. -/
def llamacpp_cmd (model_path content : String) : List String :=
  [LLAMA_CPP_CLI, "-m", model_path, "--n-gpu-layers", "40", "-p", content,
   "-n", "512", "--no-display-prompt", "-no-cnv"]

/-- The line loop of `chat_with_llamacpp`: skip any line containing a
skip pattern, stop at the first `llama_perf_` line, keep the stripped
text of the remaining non-blank lines. -/
def collect_response_lines : List String → List String
  | [] => []
  | line :: rest =>
    if LLAMA_CPP_SKIP_PATTERNS.any (fun p => containsSub line p) then
      collect_response_lines rest
    else if strStartsWith line "llama_perf_" then
      []
    else if pyStrip line ≠ "" then
      pyStrip line :: collect_response_lines rest
    else
      collect_response_lines rest

/-- Lines 171–183 of `chat_with_llamacpp`: strip, split on newlines,
filter, and join the surviving lines with single spaces (empty string
when nothing survives). -/
def extract_llamacpp_output (stdout_text : String) : String :=
  let response_lines := collect_response_lines (splitLines (pyStrip stdout_text))
  if response_lines.isEmpty then "" else joinWith " " response_lines

/-- The message of the `CalledProcessError` branch of `chat_with_llamacpp`. -/
def llamacpp_failed_msg (model : String) (stderr : Option String) : String :=
  let stderr_text := stderr.getD ""
  "Llama.cpp failed for " ++ model ++ ": " ++
    (if stderr_text = "" then "Unknown error" else pyStrip stderr_text)

/-- `chat_with_llamacpp`: resolve the artifact (raising `ValueError` when
absent), run the CLI via the `proc` oracle on the exact command list, and
translate the outcome as the Python adapter does. -/
def chat_with_llamacpp (fs : FS) (proc : List String → ProcOutcome)
    (model content : String) : Except PyErr String :=
  match resolve_model_path fs model with
  | none =>
    .error (.valueError ("Model not found: " ++ model ++ ". Available models: " ++
      pyListRepr (get_available_llamacpp_models fs)))
  | some model_path =>
    match proc (llamacpp_cmd model_path content) with
    | .ok stdout_text =>
      let response := extract_llamacpp_output stdout_text
      .ok (if response = "" then "No response generated." else response)
    | .timeoutExpired =>
      .error (.exception ("Llama.cpp request timed out for model " ++ model))
    | .calledProcessError stderr =>
      .error (.exception (llamacpp_failed_msg model stderr))
    | .fileNotFound =>
      .error (.exception "Llama.cpp CLI not found")

/-- The `messages` array `chat_with_ollama` hands to `ollama.chat`:
a single user message, nothing else. -/
def ollama_messages (content : String) : List Message :=
  [⟨"user", content⟩]

/-- An oracle for `ollama.chat`: given the model and the messages array,
either the reply's `message.content` or the exception it raises. -/
abbrev OllamaOracle := String → List Message → Except PyErr String

/-- `chat_with_ollama`. -/
def chat_with_ollama (oracle : OllamaOracle) (model content : String) :
    Except PyErr String :=
  oracle model (ollama_messages content)

/-- The `messages` array `chat_with_llama_server_http` posts to the
chat-completions endpoint: a single user message, nothing else. -/
def server_http_messages (content : String) : List Message :=
  [⟨"user", content⟩]

/-- Body of the first POST of `chat_with_llama_server_http`. -/
structure ChatCompletionsReq where
  url : String
  model : String
  messages : List Message
  stream : Bool
  max_tokens : Nat
deriving Repr, DecidableEq

/-- Body of the fallback POST of `chat_with_llama_server_http`. -/
structure CompletionReq where
  url : String
  prompt : String
  n_predict : Nat
  stream : Bool
deriving Repr, DecidableEq

/-- One `requests.post` issued by the HTTP adapter. -/
inductive PostRequest where
  | chatCompletions (r : ChatCompletionsReq)
  | completion (r : CompletionReq)
deriving Repr, DecidableEq

/-- Outcome of one `requests.post`: a response (status code, the parsed
`choices` list projected to each choice's `message.content`, the parsed
top-level `content` field, and the raw `response.text`), a
`requests.Timeout`, or another `requests.RequestException`. -/
inductive HttpResult where
  | resp (status : Nat) (choices : Option (List String))
      (content : Option String) (text : String)
  | timeout
  | requestError (msg : String)
deriving Repr, DecidableEq

/-- An oracle for the HTTP transport. -/
abbrev HttpOracle := PostRequest → HttpResult

/-- The first POST of the HTTP adapter (chat-completions style). -/
def chatCompletionsReq (url model content : String) : PostRequest :=
  .chatCompletions ⟨url ++ "/v1/chat/completions", model,
    server_http_messages content, false, 512⟩

/-- The fallback POST of the HTTP adapter (raw completion style). -/
def completionReq (url content : String) : PostRequest :=
  .completion ⟨url ++ "/completion", content, 512, false⟩

/-- `chat_with_llama_server_http`, returning the result together with the
ordered list of POSTs it issued. -/
def chat_with_llama_server_http (env : Option String) (oracle : HttpOracle)
    (model content : String) : Except PyErr String × List PostRequest :=
  match env with
  | none => (.error (.exception "LLAMA_SERVER_URL environment variable not set"), [])
  | some url =>
    let req1 := chatCompletionsReq url model content
    match oracle req1 with
    | .timeout =>
      (.error (.exception ("Llama-server request timed out for model " ++ model)), [req1])
    | .requestError m =>
      (.error (.exception ("Llama-server request failed: " ++ m)), [req1])
    | .resp status choices _content _text =>
      if status = 200 then
        match choices with
        | some (c :: _) => (.ok c, [req1])
        | _ => (.error (.exception "Invalid response format from llama-server"), [req1])
      else
        let req2 := completionReq url content
        match oracle req2 with
        | .timeout =>
          (.error (.exception ("Llama-server request timed out for model " ++ model)),
           [req1, req2])
        | .requestError m =>
          (.error (.exception ("Llama-server request failed: " ++ m)), [req1, req2])
        | .resp status2 _choices2 content2 text2 =>
          if status2 = 200 then
            (.ok (content2.getD "No response generated."), [req1, req2])
          else
            (.error (.exception ("Llama-server HTTP error: " ++ toString status2 ++
              " - " ++ text2)), [req1, req2])

/-- The three backend adapters, for invocation traces of the router. -/
inductive BackendCall where
  | process
  | http
  | managed
deriving Repr, DecidableEq

/-- Aggregated message raised by the cli branch when the model is locally
available but both llama-cli and the ollama fallback failed. -/
def cli_both_failed_msg (fs : FS) (model : String) (e_ollama : PyErr) : String :=
  "Model \x27" ++ model ++ "\x27 failed in both llama-cli and ollama. " ++
  "Available llama.cpp models: " ++ pyListRepr (get_available_llamacpp_models fs) ++
  ". Ollama error: " ++ pyStr e_ollama

/-- Aggregated message raised by the cli branch when the model has no
local artifact and ollama failed. -/
def cli_unavailable_failed_msg (fs : FS) (model : String) (e : PyErr) : String :=
  "Model \x27" ++ model ++ "\x27 not available in llama.cpp and failed in ollama. " ++
  "Available llama.cpp models: " ++ pyListRepr (get_available_llamacpp_models fs) ++
  ". Ollama error: " ++ pyStr e

/-- `chat_with_model`: the router, returning the result together with the
ordered list of backend adapters it invoked.  `env` is `LLAMA_SERVER_URL`.
Any `llama_mode` other than `"server"` and `"cli"` re-enters the router
with `"cli"` (the source's final `else` branch). -/
def chat_with_model (fs : FS) (env : Option String) (proc : List String → ProcOutcome)
    (oll : OllamaOracle) (http : HttpOracle) (model content llama_mode : String) :
    Except PyErr String × List BackendCall :=
  if llama_mode = "server" then
    match env with
    | none =>
      (.error (.exception "LLAMA_SERVER_URL environment variable not set for server mode"), [])
    | some _ =>
      if is_llamacpp_available fs model then
        match (chat_with_llama_server_http env http model content).1 with
        | .ok r => (.ok r, [.http])
        | .error _ =>
          match chat_with_llamacpp fs proc model content with
          | .ok r => (.ok r, [.http, .process])
          | .error _ =>
            match chat_with_ollama oll model content with
            | .ok r => (.ok r, [.http, .process, .managed])
            | .error e => (.error e, [.http, .process, .managed])
      else
        match chat_with_ollama oll model content with
        | .ok r => (.ok r, [.managed])
        | .error e => (.error e, [.managed])
  else if llama_mode = "cli" then
    if is_llamacpp_available fs model then
      match chat_with_llamacpp fs proc model content with
      | .ok r => (.ok r, [.process])
      | .error _ =>
        match chat_with_ollama oll model content with
        | .ok r => (.ok r, [.process, .managed])
        | .error e_ollama =>
          (.error (.exception (cli_both_failed_msg fs model e_ollama)),
           [.process, .managed])
    else
      match chat_with_ollama oll model content with
      | .ok r => (.ok r, [.managed])
      | .error e =>
        (.error (.exception (cli_unavailable_failed_msg fs model e)), [.managed])
  else
    chat_with_model fs env proc oll http model content "cli"
termination_by (if llama_mode = "cli" then 0 else 1)
decreasing_by simp_all

/-- The JSON body of the inbound `/chat` request, after parsing: each
field is present or absent. -/
structure ChatParams where
  model : Option String
  content : Option String
  llama_mode : Option String
deriving Repr, DecidableEq

/-- What the `/chat` handler hands back to Flask: a 200 JSON body, or an
`abort(code, description)`. -/
inductive EndpointResponse where
  | json (body : String)
  | abort (code : Nat) (description : String)
deriving Repr, DecidableEq

/-- The `/chat` handler after a successful `authenticate()`: apply the
request defaults, reject blank content with a 400 before routing, and
render router failures as a 500. -/
def chat (fs : FS) (env : Option String) (proc : List String → ProcOutcome)
    (oll : OllamaOracle) (http : HttpOracle) (params : ChatParams) :
    EndpointResponse × List BackendCall :=
  let model := params.model.getD DEFAULT_MODEL
  let content := params.content.getD ""
  let llama_mode := params.llama_mode.getD "cli"
  if pyStrip content = "" then
    (.abort 400 "Missing prompt content", [])
  else
    match chat_with_model fs env proc oll http model content llama_mode with
    | (.ok r, tr) => (.json r, tr)
    | (.error e, tr) => (.abort 500 (pyStr e), tr)

deriving instance DecidableEq for Except

/-! Concrete fixtures used to evaluate the embedding at specific inputs:
a filesystem with one artifact `outfile.gguf` under the first configured
model directory, and constant backend oracles. -/

/-- A filesystem state with a single artifact in the first model dir. -/
def fsDemo : FS := fun d =>
  if d = "/data1/GGUF/DeepSeek-V2.5-IQ1_M" then some ["outfile.gguf"] else none

/-- Like `fsDemo` but different outside the configured model dirs. -/
def fsDemoAlt : FS := fun d =>
  if d = "/data1/GGUF/DeepSeek-V2.5-IQ1_M" then some ["outfile.gguf"]
  else if d = "/elsewhere" then some ["unrelated.txt"] else none

/-- A subprocess that always fails with stderr `boom-proc`. -/
def procFail : List String → ProcOutcome := fun _ => .calledProcessError (some "boom-proc")

/-- A subprocess that always prints `hello world`. -/
def procHello : List String → ProcOutcome := fun _ => .ok "hello world\n"

/-- A subprocess that succeeds but prints only a filtered diagnostic line. -/
def procEmptyOut : List String → ProcOutcome := fun _ => .ok "main: foo\n"

/-- An ollama service that always answers. -/
def ollOK : OllamaOracle := fun _ _ => .ok "ollama answer"

/-- An ollama service that always raises `boom`. -/
def ollBoom : OllamaOracle := fun _ _ => .error (.exception "boom")

/-- An HTTP transport that is never expected to be reached. -/
def httpUnused : HttpOracle := fun _ => .requestError "unused"

/-- An HTTP service whose chat-completions endpoint returns 500 but whose
raw completion endpoint succeeds. -/
def httpFallbackOracle : HttpOracle := fun r =>
  match r with
  | .chatCompletions _ => .resp 500 none none "ise"
  | .completion _ => .resp 200 none (some "hello") ""

/-- An HTTP service that fails on both endpoints. -/
def httpBad : HttpOracle := fun r =>
  match r with
  | .chatCompletions _ => .resp 404 none none "nf"
  | .completion _ => .resp 503 none none "down"

/-- Agreement of two filesystem states on the scanned directories makes
the resolution loop give the same answer. -/
theorem resolve_go_agree (fs1 fs2 : FS) (model : String) (dirs : List String)
    (h : ∀ d ∈ dirs, fs1 (GGUF_DIR ++ "/" ++ d) = fs2 (GGUF_DIR ++ "/" ++ d)) :
    resolve_go fs1 model dirs = resolve_go fs2 model dirs := by
  induction dirs with
  | nil => rfl
  | cons d rest ih =>
    have hd := h d (List.mem_cons_self d rest)
    have hrest : ∀ d2 ∈ rest, fs1 (GGUF_DIR ++ "/" ++ d2) = fs2 (GGUF_DIR ++ "/" ++ d2) :=
      fun d2 hd2 => h d2 (List.mem_cons_of_mem d hd2)
    simp only [resolve_go]
    rw [hd]
    rcases hfs : fs2 (GGUF_DIR ++ "/" ++ d) with _ | files
    · simp only [hfs]
      exact ih hrest
    · simp only [hfs]
      rcases hr : resolve_in_dir model (GGUF_DIR ++ "/" ++ d) d
          (files.filter fun f => strEndsWith f ".gguf") with _ | p
      · simp only [hr]
        exact ih hrest
      · simp only [hr]

/-- Claim C1, counterexample: with the model locally available and in cli
mode, a Process-Backend failure does not propagate — the router silently
falls back to the managed backend (ollama) and returns its answer, so a
second backend is invoked and the process failure is swallowed. -/
theorem cli_failure_triggers_ollama_fallback_cex :
    chat_with_model fsDemo none procFail ollOK httpUnused "outfile" "hi" "cli" =
      (.ok "ollama answer", [BackendCall.process, BackendCall.managed]) := by
  rw [chat_with_model.eq_def]
  rfl

/-- Claim C1, amended: in cli mode with a locally available model, the
router first invokes the Process-Backend Adapter; when it fails, the
router falls back to the Managed-Backend Adapter, returning its answer on
success and raising the aggregated both-failed message when it too
fails. -/
theorem cli_local_failure_falls_back_to_managed (fs : FS) (env : Option String)
    (proc : List String → ProcOutcome) (oll : OllamaOracle) (http : HttpOracle)
    (model content : String) (e : PyErr)
    (havail : is_llamacpp_available fs model = true)
    (herr : chat_with_llamacpp fs proc model content = .error e) :
    (chat_with_model fs env proc oll http model content "cli").2 =
        [BackendCall.process, BackendCall.managed] ∧
    (∀ r, chat_with_ollama oll model content = .ok r →
        (chat_with_model fs env proc oll http model content "cli").1 = .ok r) ∧
    (∀ eo, chat_with_ollama oll model content = .error eo →
        (chat_with_model fs env proc oll http model content "cli").1 =
          .error (.exception (cli_both_failed_msg fs model eo))) := by
  rw [chat_with_model.eq_def]
  refine ⟨?_, ?_, ?_⟩
  · rcases hol : chat_with_ollama oll model content with eo | r <;>
      simp [havail, herr, hol]
  · intro r hol
    simp [havail, herr, hol]
  · intro eo hol
    simp [havail, herr, hol]

/-- Claim C1, witness for the amended theorem at a concrete input. -/
theorem cli_local_failure_falls_back_to_managed_witness :
    (chat_with_model fsDemo none procFail ollOK httpUnused "outfile" "hi" "cli").2 =
        [BackendCall.process, BackendCall.managed] ∧
    (chat_with_model fsDemo none procFail ollOK httpUnused "outfile" "hi" "cli").1 =
        .ok "ollama answer" :=
  ⟨(cli_local_failure_falls_back_to_managed fsDemo none procFail ollOK httpUnused
      "outfile" "hi" (PyErr.exception "Llama.cpp failed for outfile: boom-proc")
      rfl rfl).1,
   (cli_local_failure_falls_back_to_managed fsDemo none procFail ollOK httpUnused
      "outfile" "hi" (PyErr.exception "Llama.cpp failed for outfile: boom-proc")
      rfl rfl).2.1 "ollama answer" rfl⟩

/-- Claim C2, counterexample: in cli mode with no local artifact the
managed backend's failure is not propagated as-is — the router wraps it
into an aggregated message, so the caller sees a different error. -/
theorem cli_unavailable_error_wrapped_cex :
    (chat_with_model fsDemo none procHello ollBoom httpUnused "no-such" "hi" "cli").1 ≠
        Except.error (PyErr.exception "boom") ∧
    (chat_with_model fsDemo none procHello ollBoom httpUnused "no-such" "hi" "cli").1 =
        Except.error (PyErr.exception
          ("Model \x27no-such\x27 not available in llama.cpp and failed in ollama. " ++
           "Available llama.cpp models: [\x27DeepSeek-V2.5-IQ1_M/outfile.gguf\x27]. " ++
           "Ollama error: boom")) := by
  constructor
  · rw [chat_with_model.eq_def]
    decide
  · rw [chat_with_model.eq_def]
    rfl

/-- Claim C2, amended: with no local artifact the router calls only the
Managed-Backend Adapter, in server mode as well as in cli mode; in server
mode the managed result (success or failure) is returned unchanged, while
in cli mode a success passes through but a failure is wrapped into the
aggregated not-available message. -/
theorem unavailable_model_routes_only_to_managed (fs : FS) (env : Option String)
    (proc : List String → ProcOutcome) (oll : OllamaOracle) (http : HttpOracle)
    (model content : String)
    (hunavail : is_llamacpp_available fs model = false) :
    (∀ u, chat_with_model fs (some u) proc oll http model content "server" =
        (chat_with_ollama oll model content, [BackendCall.managed])) ∧
    (chat_with_model fs env proc oll http model content "cli").2 = [BackendCall.managed] ∧
    (∀ r, chat_with_ollama oll model content = .ok r →
        (chat_with_model fs env proc oll http model content "cli").1 = .ok r) ∧
    (∀ e, chat_with_ollama oll model content = .error e →
        (chat_with_model fs env proc oll http model content "cli").1 =
          .error (.exception (cli_unavailable_failed_msg fs model e))) := by
  refine ⟨?_, ?_, ?_, ?_⟩
  · intro u
    rw [chat_with_model.eq_def]
    rcases hol : chat_with_ollama oll model content with eo | r <;>
      simp [hunavail, hol]
  · rw [chat_with_model.eq_def]
    rcases hol : chat_with_ollama oll model content with eo | r <;>
      simp [hunavail, hol]
  · intro r hol
    rw [chat_with_model.eq_def]
    simp [hunavail, hol]
  · intro e hol
    rw [chat_with_model.eq_def]
    simp [hunavail, hol]

/-- Claim C2, witness for the amended theorem at a concrete input. -/
theorem unavailable_model_routes_only_to_managed_witness :
    chat_with_model fsDemo (some "http://localhost:8080") procHello ollBoom httpUnused
        "no-such" "hi" "server" =
      (chat_with_ollama ollBoom "no-such" "hi", [BackendCall.managed]) ∧
    (chat_with_model fsDemo none procHello ollBoom httpUnused "no-such" "hi" "cli").1 =
      .error (.exception (cli_unavailable_failed_msg fsDemo "no-such" (.exception "boom"))) :=
  ⟨(unavailable_model_routes_only_to_managed fsDemo none procHello ollBoom httpUnused
      "no-such" "hi" rfl).1 "http://localhost:8080",
   (unavailable_model_routes_only_to_managed fsDemo none procHello ollBoom httpUnused
      "no-such" "hi" rfl).2.2.2 (.exception "boom") rfl⟩

/-- Claim C3: the router does not reject unknown mode values.  At the
concrete mode `"invalid"` (which the repository's own test suite expects
to raise `ValueError("Invalid llama_mode: ...")`), the router silently
behaves like cli mode and returns the process backend's answer. -/
theorem invalid_mode_not_rejected :
    chat_with_model fsDemo none procHello ollBoom httpUnused "outfile" "hi" "invalid" =
      (.ok "hello world", [BackendCall.process]) := by
  rw [chat_with_model.eq_def]
  rw [chat_with_model.eq_def]
  rfl

/-- Claim C4: in server mode with no configured `LLAMA_SERVER_URL`, the
router fails with the configuration-error message before invoking any
backend adapter (the invocation trace is empty). -/
theorem server_mode_without_url_fails_before_backends (fs : FS)
    (proc : List String → ProcOutcome) (oll : OllamaOracle) (http : HttpOracle)
    (model content : String) :
    chat_with_model fs none proc oll http model content "server" =
      (.error (.exception "LLAMA_SERVER_URL environment variable not set for server mode"),
       []) := by
  rw [chat_with_model.eq_def]
  rfl

/-- Claim C5: the adapters forward no system prompt.  The messages arrays
built for the managed backend and for the HTTP backend consist of the
single user message (their role list is exactly `["user"]`, never led by
a `"system"` message), and the CLI argument list contains a
`--system-prompt` token only in the degenerate case where the caller's
own data equals that string — there is no system-prompt input anywhere in
the embedded adapters, contradicting the claim and the repository's
system-prompt tests. -/
theorem adapters_forward_no_system_prompt (model_path content : String) :
    (ollama_messages content).map Message.role = ["user"] ∧
    (server_http_messages content).map Message.role = ["user"] ∧
    ("--system-prompt" ∈ llamacpp_cmd model_path content ↔
      model_path = "--system-prompt" ∨ content = "--system-prompt") := by
  refine ⟨rfl, rfl, ?_⟩
  simp [llamacpp_cmd, LLAMA_CPP_CLI, eq_comm]

/-- Claim C6, counterexample: a non-200 status on the chat-completions
POST does not make the adapter fail — it issues a second POST to the raw
`/completion` endpoint and returns its content, so there are two POSTs in
one invocation and no `HttpFailure`. -/
theorem http_adapter_second_post_cex :
    (chat_with_llama_server_http (some "http://h") httpFallbackOracle "m" "hi").1 =
        .ok "hello" ∧
    (chat_with_llama_server_http (some "http://h") httpFallbackOracle "m" "hi").2.length = 2 :=
  ⟨rfl, rfl⟩

/-- Claim C6, amended: the adapter first POSTs to the chat-completions
endpoint; a 200 response lacking a non-empty choices list fails with the
distinct invalid-response-format error after that single POST; a non-200
status instead triggers a second POST to the raw `/completion` endpoint,
and only when that second response is also non-200 does the adapter fail
with the HTTP-error message carrying the second status. -/
theorem http_adapter_fallback_post_behavior (url model content : String)
    (oracle : HttpOracle) :
    (∀ ch co tx, oracle (chatCompletionsReq url model content) = .resp 200 ch co tx →
        (ch = none ∨ ch = some []) →
        chat_with_llama_server_http (some url) oracle model content =
          (.error (.exception "Invalid response format from llama-server"),
           [chatCompletionsReq url model content])) ∧
    (∀ s ch co tx, oracle (chatCompletionsReq url model content) = .resp s ch co tx →
        s ≠ 200 →
        (chat_with_llama_server_http (some url) oracle model content).2 =
          [chatCompletionsReq url model content, completionReq url content]) ∧
    (∀ s ch co tx s2 ch2 co2 tx2,
        oracle (chatCompletionsReq url model content) = .resp s ch co tx → s ≠ 200 →
        oracle (completionReq url content) = .resp s2 ch2 co2 tx2 → s2 ≠ 200 →
        (chat_with_llama_server_http (some url) oracle model content).1 =
          .error (.exception ("Llama-server HTTP error: " ++ toString s2 ++ " - " ++ tx2))) := by
  refine ⟨?_, ?_, ?_⟩
  · intro ch co tx h1 hch
    rcases hch with h | h <;> subst h <;> simp [chat_with_llama_server_http, h1]
  · intro s ch co tx h1 hs
    rcases h2 : oracle (completionReq url content) with ⟨s2, ch2, co2, tx2⟩ | _ | m <;>
        simp [chat_with_llama_server_http, h1, h2, hs]
    split <;> rfl
  · intro s ch co tx s2 ch2 co2 tx2 h1 hs h2 hs2
    simp [chat_with_llama_server_http, h1, h2, hs, hs2]

/-- Claim C6, witness for the amended theorem at a concrete input where
both POSTs return non-200 statuses. -/
theorem http_adapter_fallback_post_behavior_witness :
    (chat_with_llama_server_http (some "http://h") httpBad "m" "hi").2 =
        [chatCompletionsReq "http://h" "m" "hi", completionReq "http://h" "hi"] ∧
    (chat_with_llama_server_http (some "http://h") httpBad "m" "hi").1 =
        .error (.exception ("Llama-server HTTP error: " ++ toString 503 ++ " - " ++ "down")) :=
  ⟨(http_adapter_fallback_post_behavior "http://h" "m" "hi" httpBad).2.1
      404 none none "nf" rfl (by decide),
   (http_adapter_fallback_post_behavior "http://h" "m" "hi" httpBad).2.2
      404 none none "nf" 503 none none "down" rfl (by decide) rfl (by decide)⟩

/-- Claim C7: a successful Process-Backend run whose decoded, trimmed and
filtered standard output is empty yields the literal placeholder answer
`"No response generated."` as a success, not an error. -/
theorem empty_process_output_yields_placeholder (fs : FS)
    (proc : List String → ProcOutcome) (model content model_path stdout_text : String)
    (hres : resolve_model_path fs model = some model_path)
    (hok : proc (llamacpp_cmd model_path content) = .ok stdout_text)
    (hempty : extract_llamacpp_output stdout_text = "") :
    chat_with_llamacpp fs proc model content = .ok "No response generated." := by
  simp [chat_with_llamacpp, hres, hok, hempty]

/-- Claim C7, witness at a concrete run whose whole output is a filtered
diagnostic line. -/
theorem empty_process_output_yields_placeholder_witness :
    chat_with_llamacpp fsDemo procEmptyOut "outfile" "hi" = .ok "No response generated." :=
  empty_process_output_yields_placeholder fsDemo procEmptyOut "outfile" "hi"
    "/data1/GGUF/DeepSeek-V2.5-IQ1_M/outfile.gguf" "main: foo\n" rfl rfl rfl

/-- Claim C8: an inbound request whose content is blank after stripping
whitespace is rejected with a 400 `"Missing prompt content"` and an empty
backend-invocation trace — no backend adapter is contacted. -/
theorem blank_content_rejected_before_backends (fs : FS) (env : Option String)
    (proc : List String → ProcOutcome) (oll : OllamaOracle) (http : HttpOracle)
    (params : ChatParams) (h : pyStrip (params.content.getD "") = "") :
    chat fs env proc oll http params = (.abort 400 "Missing prompt content", []) := by
  simp [chat, h]

/-- Claim C8, witness at a request whose content is three spaces. -/
theorem blank_content_rejected_before_backends_witness :
    chat fsDemo none procHello ollOK httpUnused ⟨some "m", some "   ", some "cli"⟩ =
      (.abort 400 "Missing prompt content", []) :=
  blank_content_rejected_before_backends fsDemo none procHello ollOK httpUnused
    ⟨some "m", some "   ", some "cli"⟩ rfl

/-- Claim C9: model resolution is deterministic over the directory
contents it reads — two filesystem states that agree on the listings of
the configured model directories resolve every identifier to the same
artifact path (or both to absence), so repeated calls under an unchanged
filesystem return the same result. -/
theorem resolve_model_path_deterministic (fs1 fs2 : FS) (model : String)
    (h : ∀ d ∈ LLAMA_CPP_MODEL_DIRS,
        fs1 (GGUF_DIR ++ "/" ++ d) = fs2 (GGUF_DIR ++ "/" ++ d)) :
    resolve_model_path fs1 model = resolve_model_path fs2 model :=
  resolve_go_agree fs1 fs2 model LLAMA_CPP_MODEL_DIRS h

/-- Claim C9, witness: two filesystem states agreeing on the model
directories but different elsewhere resolve `"outfile"` identically. -/
theorem resolve_model_path_deterministic_witness :
    (∀ d ∈ LLAMA_CPP_MODEL_DIRS,
        fsDemo (GGUF_DIR ++ "/" ++ d) = fsDemoAlt (GGUF_DIR ++ "/" ++ d)) ∧
    resolve_model_path fsDemo "outfile" = resolve_model_path fsDemoAlt "outfile" :=
  ⟨by decide, resolve_model_path_deterministic fsDemo fsDemoAlt "outfile" (by decide)⟩

/-- Claim C10: for any mode value other than `"server"` and `"cli"`, the
router behaves exactly as with mode `"cli"` — the unknown-mode branch is
a pure delegation to the cli branch, with identical result and identical
backend-invocation trace. -/
theorem unknown_mode_delegates_to_cli (fs : FS) (env : Option String)
    (proc : List String → ProcOutcome) (oll : OllamaOracle) (http : HttpOracle)
    (model content llama_mode : String)
    (h1 : llama_mode ≠ "server") (h2 : llama_mode ≠ "cli") :
    chat_with_model fs env proc oll http model content llama_mode =
      chat_with_model fs env proc oll http model content "cli" := by
  conv_lhs => rw [chat_with_model.eq_def]
  rw [if_neg h1, if_neg h2]

/-- Claim C10, witness at the concrete unknown mode `"batch"`. -/
theorem unknown_mode_delegates_to_cli_witness :
    chat_with_model fsDemo none procHello ollOK httpUnused "outfile" "hi" "batch" =
      chat_with_model fsDemo none procHello ollOK httpUnused "outfile" "hi" "cli" :=
  unknown_mode_delegates_to_cli fsDemo none procHello ollOK httpUnused "outfile" "hi"
    "batch" (by decide) (by decide)

end AiServer
